import Mathlib

/-!
Shallow embedding of the kaizen repository's service scripts:
the phone normalizer, WhatsApp dispatch endpoint, forecast handler,
customer-segmentation pipeline (fuzzy inference + k-means orchestration)
from `forecast/app.py`, and the commit-count estimator from
`Commando-AI/sample.py`.

External collaborators (the `phonenumbers` parser, Twilio, Prophet,
sklearn's fit procedures) are modelled as oracle parameters or by their
documented contracts; the orchestration logic built on top of them is
translated from the source.
-/

namespace Kaizen

/-! ## Exact rational arithmetic

The Python code computes in IEEE floats; the embedding idealizes those
computations as exact rationals.  `Q` is a rational implemented as a
gcd-normalized `num/den` pair with `den > 0`, so that semantic equality
of values built from the operations below is structural equality and the
kernel can evaluate every closed computation (the library `Rat` keeps its
arithmetic `@[irreducible]`, which blocks `decide`). -/

structure Q where
  num : Int
  den : Int
deriving DecidableEq, Repr

namespace Q

/-- Normalize a fraction: positive denominator, coprime components;
`n/0` maps to `0` (never produced by the guarded operations below). -/
def norm (n d : Int) : Q :=
  if d = 0 then ⟨0, 1⟩
  else
    let s : Int := if d < 0 then -1 else 1
    let n' := s * n
    let d' := s * d
    let g : Int := (Int.gcd n' d' : Nat)
    if g = 0 then ⟨0, 1⟩ else ⟨n' / g, d' / g⟩

def ofInt (n : Int) : Q := ⟨n, 1⟩

def ofNat (n : Nat) : Q := ⟨(n : Int), 1⟩

instance (n : Nat) : OfNat Q n := ⟨ofNat n⟩

instance : Zero Q := ⟨ofNat 0⟩

protected def add (a b : Q) : Q := norm (a.num * b.den + b.num * a.den) (a.den * b.den)

instance : Add Q := ⟨Q.add⟩

protected def neg (a : Q) : Q := ⟨-a.num, a.den⟩

instance : Neg Q := ⟨Q.neg⟩

protected def sub (a b : Q) : Q := a + -b

instance : Sub Q := ⟨Q.sub⟩

protected def mul (a b : Q) : Q := norm (a.num * b.num) (a.den * b.den)

instance : Mul Q := ⟨Q.mul⟩

/-- Division, with `x / 0 = 0` (the embedded code only divides by
nonzero guards). -/
protected def div (a b : Q) : Q :=
  if b.num = 0 then ⟨0, 1⟩ else norm (a.num * b.den) (a.den * b.num)

instance : Div Q := ⟨Q.div⟩

protected def le (a b : Q) : Prop := a.num * b.den ≤ b.num * a.den

instance : LE Q := ⟨Q.le⟩

protected def lt (a b : Q) : Prop := a.num * b.den < b.num * a.den

instance : LT Q := ⟨Q.lt⟩

instance (a b : Q) : Decidable (a ≤ b) :=
  inferInstanceAs (Decidable (a.num * b.den ≤ b.num * a.den))

instance (a b : Q) : Decidable (a < b) :=
  inferInstanceAs (Decidable (a.num * b.den < b.num * a.den))

/-- `np.fmin` on two numbers. -/
instance : Min Q := ⟨fun a b => if a ≤ b then a else b⟩

/-- `np.fmax` on two numbers. -/
instance : Max Q := ⟨fun a b => if a ≤ b then b else a⟩

/-- `np.abs`. -/
def abs (a : Q) : Q := if a.num < 0 then -a else a

end Q

/-! ## Phone normalizer (`format_phone_number`, app.py lines 88-164)

The `phonenumbers` library is external: `pv s` models
`parse(s, None)` + `is_valid_number` + `format E164` (returning `none`
when parsing fails or the number is invalid), and `pr s region` models
`parse(s, region)` + validity + E164 formatting. -/

/-- Python `str.strip()`: drop whitespace from both ends (phone strings
are handled as their character lists throughout). -/
def stripEnds (l : List Char) : List Char :=
  ((l.dropWhile Char.isWhitespace).reverse.dropWhile Char.isWhitespace).reverse

/-- `str(phone).strip().replace(' ','').replace('-','').replace('(','')
.replace(')','').replace('.','')` from app.py line 97: each replacement
target is one character and the replacement is empty, so the chain
removes every occurrence of those five characters. -/
def cleanPhone (s : String) : List Char :=
  (stripEnds s.toList).filter
    (fun c => !(c == ' ' || c == '-' || c == '(' || c == ')' || c == '.'))

/-- The ordered candidate country calling codes of app.py lines 119-125. -/
def countryCodePrefixes : List (List Char) :=
  [['+', '9', '1'], ['+', '1'], ['+', '4', '4'], ['+', '6', '1'], ['+', '4', '9']]

/-- The ordered fallback regions of app.py line 156. -/
def fallbackRegions : List String :=
  ["IN", "GB", "AU", "CA", "DE", "FR", "IT", "ES", "BR", "MX"]

/-- `phone.startswith('+')` from app.py line 100. -/
def startsWithPlus : List Char → Bool
  | [] => false
  | c :: _ => c == '+'

/-- `phone[0] in ['6','7','8','9']` from app.py line 128. -/
def looksIndian : List Char → Bool
  | [] => false
  | c :: _ => c == '6' || c == '7' || c == '8' || c == '9'

/-- `len(phone) == 10 and phone.isdigit()` from app.py lines 117/147. -/
def isTenDigits (p : List Char) : Bool :=
  p.length == 10 && p.all Char.isDigit

/-- Embedding of `format_phone_number` (app.py lines 88-164).
`pv` is the no-region parse/validate/format oracle
(`phonenumbers.parse(s, None)` + `is_valid_number` + E.164 formatting),
`pr` the region-based one; each step's first success wins. -/
def format_phone_number (pv : List Char → Option (List Char))
    (pr : List Char → String → Option (List Char)) (phone : String) :
    Option (List Char) :=
  if phone.toList = [] then none else
  let p := cleanPhone phone
  (if startsWithPlus p then pv p else none) <|>
  pr p "US" <|>
  (if isTenDigits p then
    (if looksIndian p then pv (['+', '9', '1'] ++ p) else none) <|>
    countryCodePrefixes.findSome? (fun cc => pv (cc ++ p)) <|>
    pr p "IN"
   else none) <|>
  fallbackRegions.findSome? (fun r => pr p r)

/-! ## Commit-count estimator (`estimate_commit_count`, sample.py lines 71-88)

HTTP and `urllib` URL parsing are external: a commits-listing response is
modelled by its status, the parsed entries of its `link` header (each the
`rel` value plus the `page`/`per_page` query parameters of the URL found
between `<` and `>`), and the number of JSON items on the page.
`fetchLast` models the follow-up GET of the last-page URL, returning that
page's item count. -/

structure LastURL where
  page : Option Int
  perPage : Option Int
deriving DecidableEq, Repr

structure LinkEntry where
  rel : String
  url : LastURL
deriving DecidableEq, Repr

structure CommitsResponse where
  status : Nat
  link : Option (List LinkEntry)
  items : Nat
deriving DecidableEq, Repr

/-- Embedding of `estimate_commit_count` (sample.py lines 71-88): status
204 means zero commits; a `rel="last"` link entry (first match wins, as in
the `for part in ...split(',')` loop) is extrapolated as
`(last_page - 1) * per_page + len(last_page_items)` with `parse_qs`
defaults `page=1`, `per_page=30`; otherwise the single page's item count
is returned. -/
def estimate_commit_count (fetchLast : LastURL → Nat)
    (resp : CommitsResponse) : Int :=
  if resp.status = 204 then 0
  else
    match resp.link with
    | some entries =>
      match entries.find? (fun e => e.rel == "last") with
      | some e =>
        ((e.url.page.getD 1) - 1) * (e.url.perPage.getD 30) + (fetchLast e.url : Int)
      | none => (resp.items : Int)
    | none => (resp.items : Int)

/-! ## WhatsApp dispatch endpoint (`send_whatsapp`, app.py lines 616-772)

The Twilio SDK call is external: `send body to` models
`twilio_client.messages.create(body=..., from_=..., to=...)`, returning
either the created message (sid, status) or the exception's message
string.  The model starts after request plumbing, from the parsed
`recipients` list with Twilio configured. -/

structure Recipient where
  phone : Option String
  message : Option String
  customerName : Option String
deriving DecidableEq, Repr

structure TwilioMsg where
  sid : String
  status : String
deriving DecidableEq, Repr

structure SendResult where
  phone : Option String
  formattedPhone : Option String
  customerName : String
  success : Bool
  messageId : Option String
  status : Option String
  error : Option String
deriving DecidableEq, Repr

structure DispatchReport where
  total : Nat
  sent : Nat
  failed : Nat
  results : List SendResult
deriving DecidableEq, Repr

/-- Python truthiness of `recipient.get('phone')`: present and non-empty. -/
def presentStr : Option String → Option String
  | some s => if s = "" then none else some s
  | none => none

/-- The loop body of app.py lines 671-750: one recipient, one result,
in all paths (missing fields, failed normalization, send exception,
success). -/
def processRecipient (fmt : String → Option String)
    (send : String → String → Except String TwilioMsg)
    (r : Recipient) : SendResult :=
  let customerName := r.customerName.getD "Customer"
  match presentStr r.phone, presentStr r.message with
  | none, _ =>
    { phone := r.phone, formattedPhone := none, customerName := customerName,
      success := false, messageId := none, status := none,
      error := some "Missing phone or message" }
  | some _, none =>
    { phone := r.phone, formattedPhone := none, customerName := customerName,
      success := false, messageId := none, status := none,
      error := some "Missing phone or message" }
  | some phone, some message =>
    match fmt phone with
    | none =>
      { phone := some phone, formattedPhone := none, customerName := customerName,
        success := false, messageId := none, status := none,
        error := some ("Invalid phone number format: " ++ phone) }
    | some formatted =>
      match send message ("whatsapp:" ++ formatted) with
      | .ok msg =>
        { phone := some phone, formattedPhone := some formatted,
          customerName := customerName, success := true,
          messageId := some msg.sid, status := some msg.status, error := none }
      | .error e =>
        { phone := some phone, formattedPhone := none,
          customerName := customerName, success := false,
          messageId := none, status := none, error := some e }

/-- Embedding of the `/whatsapp/send` handler's dispatch loop and tally
(app.py lines 670-763): sequential processing of every recipient,
`sent = #successes`, `failed = total - sent`. -/
def send_whatsapp (fmt : String → Option String)
    (send : String → String → Except String TwilioMsg)
    (recipients : List Recipient) : DispatchReport :=
  let results := recipients.map (processRecipient fmt send)
  let successCount := (results.filter (·.success)).length
  { total := recipients.length, sent := successCount,
    failed := recipients.length - successCount, results := results }

/-! ## Forecast handler (`forecast`, app.py lines 175-301)

Prophet is external: `fitPredict series periods` models constructing the
Prophet model with the fixed options, fitting it on the sorted monthly
series and predicting over history plus `periods` future month-starts; it
returns the per-month historical predictions (`yhat`, `trend`,
`yhat_lower`, `yhat_upper`) and the future rows, or the exception text.
The request body is modelled after JSON parsing, with `periods` already
coerced to an integer and the target field one of the three known ones
(`df[forecast_type]` on any other key raises). -/

inductive FType where
  | revenue
  | aov
  | orders
deriving DecidableEq, Repr

structure MonthlySample where
  month : String
  revenue : Q
  aov : Q
  orders : Q
deriving DecidableEq, Repr

def fieldOf : FType → MonthlySample → Q
  | .revenue, s => s.revenue
  | .aov, s => s.aov
  | .orders, s => s.orders

structure ForecastBody where
  monthlyData : List MonthlySample
  periods : Int
  ftype : FType
deriving DecidableEq, Repr

structure PredPoint where
  month : String
  yhat : Q
  trend : Q
  yhatLower : Q
  yhatUpper : Q
deriving DecidableEq, Repr

structure Predictions where
  hist : List PredPoint
  future : List PredPoint
deriving DecidableEq, Repr

structure Metrics where
  mape : Q
  mae : Q
  rmse : Q
deriving DecidableEq, Repr

structure FPoint where
  month : String
  value : Q
  ptype : String
  trend : Q
  yhatLower : Q
  yhatUpper : Q
deriving DecidableEq, Repr

inductive ForecastResult where
  | err (code : Nat) (msg : String)
  | ok (historical : List FPoint) (forecast : List FPoint) (metrics : Metrics)
deriving DecidableEq, Repr

/-- `np.mean` over a list of rationals (length 0 never reached on the
guarded paths). -/
def listMean (l : List Q) : Q := l.sum / Q.ofNat l.length

/-- The MAPE computation of app.py line 271:
`np.mean(np.abs((actuals - predictions) / actuals)) * 100
 if np.any(actuals != 0) else 0`. -/
def mapeOf (actuals predictions : List Q) : Q :=
  if actuals.any (· ≠ 0) then
    listMean ((actuals.zip predictions).map (fun ap => Q.abs ((ap.1 - ap.2) / ap.1))) * 100
  else 0

/-- MAE (app.py line 272). -/
def maeOf (actuals predictions : List Q) : Q :=
  listMean ((actuals.zip predictions).map (fun ap => Q.abs (ap.1 - ap.2)))

/-- The mean squared error under the `rmse` root (app.py line 287); the
square root itself is the external `np.sqrt`, represented by the oracle
`sqrtQ` at the call site. -/
def mseOf (actuals predictions : List Q) : Q :=
  listMean ((actuals.zip predictions).map (fun ap => (ap.1 - ap.2) * (ap.1 - ap.2)))

/-- `df.sort_values('ds')` where `ds = pd.to_datetime(month + '-01')`:
sort by the parsed date key; `monthKey` models the external pandas date
parser (monotone on well-formed `YYYY-MM` strings). -/
def sortByMonth (monthKey : String → Int) (l : List MonthlySample) :
    List MonthlySample :=
  l.insertionSort (fun a b => monthKey a.month ≤ monthKey b.month)

/-- Embedding of the `/forecast` handler (app.py lines 175-301).
A `none` body is a falsy `request.json` (absent or empty object). -/
def forecast_handler (sqrtQ : Q → Q) (monthKey : String → Int)
    (fitPredict : List (String × Q) → Int → Except String Predictions)
    (body : Option ForecastBody) : ForecastResult :=
  match body with
  | none => .err 400 "No data provided"
  | some b =>
    if b.monthlyData.length < 3 then
      .err 400 "Insufficient data. Need at least 3 months of historical data."
    else
      let df := sortByMonth monthKey b.monthlyData
      let series := df.map (fun s => (s.month, fieldOf b.ftype s))
      match fitPredict series b.periods with
      | .error e => .err 500 e
      | .ok preds =>
        let historical := (df.zip preds.hist).map (fun sp =>
          { month := sp.1.month, value := fieldOf b.ftype sp.1,
            ptype := "historical", trend := sp.2.trend,
            yhatLower := sp.2.yhatLower, yhatUpper := sp.2.yhatUpper })
        let forecastData := preds.future.map (fun p =>
          { month := p.month, value := p.yhat, ptype := "forecast",
            trend := p.trend, yhatLower := p.yhatLower,
            yhatUpper := p.yhatUpper })
        let actuals := df.map (fieldOf b.ftype)
        let predictions := preds.hist.map (·.yhat)
        .ok historical forecastData
          { mape := mapeOf actuals predictions,
            mae := maeOf actuals predictions,
            rmse := sqrtQ (mseOf actuals predictions) }

/-! ## Fuzzy segmentation stage (app.py lines 342-405, 491-522)

skfuzzy's triangular membership, Mamdani min/max inference and centroid
defuzzification over the sampled output universe are translated directly.
Every membership-function breakpoint lies on its universe's sampling grid,
so evaluating the closed-form `trimf` at a crisp input equals skfuzzy's
`interp_membership` of the sampled array there. -/

/-- skfuzzy `trimf` with parameters `[a, b, c]`, evaluated at `x`:
1 at `b`, linear on `(a,b)` and `(b,c)`, 0 elsewhere. -/
def trimf (a b c x : Q) : Q :=
  if x = b then 1
  else if a < x ∧ x < b then (x - a) / (b - a)
  else if b < x ∧ x < c then (c - x) / (c - b)
  else 0

/-- `clip_to_bounds=True` (the `ControlSystemSimulation` default): crisp
inputs are clipped to the universe bounds. -/
def clipU (lo hi x : Q) : Q := max lo (min hi x)

-- Membership functions, app.py lines 358-381.
def totalSpentLow (x : Q) : Q := trimf 0 0 1500 x
def totalSpentMedium (x : Q) : Q := trimf 1000 2500 4000 x
def totalSpentHigh (x : Q) : Q := trimf 3500 5000 5000 x

def intentWeak (x : Q) : Q := trimf 0 0 (1/2) x
def intentModerate (x : Q) : Q := trimf (3/10) (6/10) (9/10) x
def intentStrong (x : Q) : Q := trimf (7/10) 1 1 x

def touchLow (x : Q) : Q := trimf 0 0 7 x
def touchMedium (x : Q) : Q := trimf 5 12 18 x
def touchHigh (x : Q) : Q := trimf 15 20 20 x

def recencyRecent (x : Q) : Q := trimf 0 0 200 x
def recencyModerate (x : Q) : Q := trimf 150 400 650 x
def recencyDistant (x : Q) : Q := trimf 600 800 800 x

def segNurture (x : Q) : Q := trimf 0 0 4 x
def segHighValue (x : Q) : Q := trimf 3 6 9 x
def segReengage (x : Q) : Q := trimf 7 10 10 x

/-- The per-term activation levels: each rule fires at the min of its
antecedent memberships (app.py lines 384-395), and rules sharing a
consequent term accumulate by max (skfuzzy's default aggregation). -/
structure Activations where
  nurture : Q
  highValue : Q
  reengage : Q
deriving DecidableEq, Repr

/-- Rule evaluation on the clipped crisp inputs `ts` (total_spent),
`isc` (intent_score), `tc` (touchpoints_count), `rc` (recency). -/
def ruleActivations (ts isc tc rc : Q) : Activations :=
  let r1 := min (totalSpentHigh ts) (min (intentStrong isc) (recencyRecent rc))
  let r2 := min (totalSpentLow ts) (recencyDistant rc)
  let r3 := min (totalSpentLow ts)
    (min (intentWeak isc) (min (recencyRecent rc) (touchLow tc)))
  let r4 := min (totalSpentMedium ts)
    (min (intentModerate isc) (recencyModerate rc))
  let r5 := min (recencyDistant rc) (touchLow tc)
  let r6 := min (intentStrong isc) (touchHigh tc)
  { nurture := r3, highValue := max r1 (max r4 r6), reengage := max r2 r5 }

/-- The aggregated output membership at a point of the output universe:
max over terms of the term's membership clipped at its activation. -/
def aggregatedMF (a : Activations) (x : Q) : Q :=
  max (min a.nurture (segNurture x))
    (max (min a.highValue (segHighValue x)) (min a.reengage (segReengage x)))

/-- The sampled output universe `np.arange(0, 11, 1)` (app.py line 347). -/
def outUniverse : List Q := (List.range 11).map (fun n => Q.ofNat n)

/-- One segment of skfuzzy's `centroid` defuzzifier: the
(moment·area, area) contribution of the linear piece from `(x1,y1)` to
`(x2,y2)`. -/
def centroidSeg (x1 y1 x2 y2 : Q) : Q × Q :=
  if (y1 = 0 ∧ y2 = 0) ∨ x1 = x2 then (0, 0)
  else if y1 = y2 then
    ((x1 + x2) / 2 * ((x2 - x1) * y1), (x2 - x1) * y1)
  else if y1 = 0 then
    ((2/3 * (x2 - x1) + x1) * ((x2 - x1) * y2 / 2), (x2 - x1) * y2 / 2)
  else if y2 = 0 then
    ((1/3 * (x2 - x1) + x1) * ((x2 - x1) * y1 / 2), (x2 - x1) * y1 / 2)
  else
    ((2/3 * (x2 - x1) * (y2 + y1 / 2) / (y1 + y2) + x1) *
        ((x2 - x1) * (y1 + y2) / 2),
      (x2 - x1) * (y1 + y2) / 2)

/-- Sum of the segment contributions over consecutive sample points. -/
def centroidSums : List (Q × Q) → Q × Q
  | p1 :: p2 :: rest =>
    let s := centroidSeg p1.1 p1.2 p2.1 p2.2
    let acc := centroidSums (p2 :: rest)
    (s.1 + acc.1, s.2 + acc.2)
  | _ => (0, 0)

/-- skfuzzy centroid defuzzification of a sampled membership function;
`none` when the total truth degree is zero (skfuzzy raises there, which
`apply_fuzzy_segmentation` catches). -/
def defuzzCentroid (xs ys : List Q) : Option Q :=
  if ys.sum = 0 then none
  else
    let s := centroidSums (xs.zip ys)
    if s.2 = 0 then none else some (s.1 / s.2)

/-- The crisp promotional-segment score for the four raw features:
inputs clipped to their universes, six Mamdani rules, max aggregation,
centroid defuzzification over the 11-point output universe. -/
def fuzzyScore (ts isc tc rc : Q) : Option Q :=
  let a := ruleActivations (clipU 0 5000 ts) (clipU 0 1 isc)
    (clipU 0 20 tc) (clipU 0 800 rc)
  defuzzCentroid outUniverse (outUniverse.map (aggregatedMF a))

/-- The `promotional_bins`/`promotional_labels` mapping of app.py lines
403-405 and 511-517: `[0,4.5) ↦ New Customer Nurture`,
`[4.5,7.5) ↦ High Value Engagement`, `[7.5,10] ↦ Re-engagement`,
anything else left as `Unknown`. -/
def categoryOf : Option Q → String
  | none => "Unknown"
  | some s =>
    if 0 ≤ s ∧ s < 9/2 then "New Customer Nurture"
    else if 9/2 ≤ s ∧ s < 15/2 then "High Value Engagement"
    else if 15/2 ≤ s ∧ s ≤ 10 then "Re-engagement"
    else "Unknown"

/-! ## Segmentation pipeline state and endpoints (app.py lines 335-614)

A pandas DataFrame read from the uploaded CSV is modelled as a list of
rows plus flags recording whether the `intent_score` and
`touchpoints_count` columns are present (the code's default fill at
app.py lines 476-483 is per-column: it assigns a column only when the
column is absent).  A missing value inside a present column is an
`Option.none` (pandas NaN).  Dates are modelled as day numbers after
`pd.to_datetime(..., errors='coerce')`; `now` is `pd.Timestamp.now()`.

sklearn is external and modelled by its contracts: `StandardScaler.fit`
rejects an empty sample list and otherwise freezes per-feature centres
and scales (NaN-tolerant, like sklearn's nanmean path; `sqrtQ` stands for
the library's square root, with sklearn's zero-variance-to-1 guard);
`KMeans(n_clusters=4, ...).fit` rejects NaN input and fewer samples than
clusters, and otherwise stores the centroids produced by the library's
training procedure `train` (whose documented contract is to return
exactly `n_clusters` centroids); `predict` returns the index of the
nearest centroid, first minimum winning as in `np.argmin`. -/

structure Row where
  total_spent : Option Q
  intent_score : Option Q
  touchpoints_count : Option Q
  last_purchase_date : Option Int
deriving DecidableEq, Repr

structure Frame where
  hasIntent : Bool
  hasTouch : Bool
  rows : List Row
deriving DecidableEq, Repr

structure ProcessedRow where
  total_spent : Q
  intent_score : Option Q
  touchpoints_count : Option Q
  recency : Int
deriving DecidableEq, Repr

/-- The shared preprocessing of `initialize_segmentation_models`
(app.py lines 416-436) and `prepare_customer_data` (lines 457-483):
fill NaN `total_spent` with 0, derive `recency = now - last_purchase_date`
in days, fill missing recency with `max_recency + 30` (1000 + 30 when no
row has a date), and default the `intent_score` / `touchpoints_count`
columns to 0.5 / 0 when the column is absent from the frame. -/
def prepareRows (now : Int) (f : Frame) : List ProcessedRow :=
  let recencies := f.rows.filterMap (fun r => r.last_purchase_date.map (now - ·))
  let maxR := recencies.max?.getD 1000
  f.rows.map (fun r =>
    { total_spent := r.total_spent.getD 0,
      intent_score := if f.hasIntent then r.intent_score else some (1/2),
      touchpoints_count := if f.hasTouch then r.touchpoints_count else some 0,
      recency := (r.last_purchase_date.map (now - ·)).getD (maxR + 30) })

/-- The four clustering features in the order of `clustering_features`
(app.py line 408). -/
def featuresOf (p : ProcessedRow) : List (Option Q) :=
  [some p.total_spent, p.intent_score, p.touchpoints_count,
    some (Q.ofInt p.recency)]

structure Scaler where
  center : List Q
  scale : List Q
deriving DecidableEq, Repr

/-- Mean of the present values of one feature column (sklearn's
NaN-tolerant mean; a column with no present value is outside the modelled
scope and mapped to 0). -/
def colMean (vals : List (Option Q)) : Q :=
  let present := vals.filterMap id
  if present.length = 0 then 0 else present.sum / Q.ofNat present.length

/-- Population variance of the present values of one feature column. -/
def colVar (vals : List (Option Q)) : Q :=
  let present := vals.filterMap id
  if present.length = 0 then 0
  else
    let m := present.sum / Q.ofNat present.length
    (present.map (fun v => (v - m) * (v - m))).sum / Q.ofNat present.length

/-- Extract column `j` of the feature matrix. -/
def colOf (rows : List (List (Option Q))) (j : Nat) : List (Option Q) :=
  rows.map (fun r => (r.get? j).getD none)

/-- `StandardScaler().fit(...)` (app.py lines 441-442): fails on an empty
sample list; otherwise freezes per-feature mean and scale, where a
zero-variance feature gets scale 1 (sklearn's `_handle_zeros_in_scale`)
and `sqrtQ` is the library's square root. -/
def scalerFit (sqrtQ : Q → Q) (rows : List (List (Option Q))) :
    Except String Scaler :=
  if rows.length = 0 then
    .error "Found array with 0 sample(s)"
  else
    .ok { center := (List.range 4).map (fun j => colMean (colOf rows j)),
          scale := (List.range 4).map (fun j =>
            let v := colVar (colOf rows j)
            if v = 0 then 1 else sqrtQ v) }

/-- `scaler.transform` of one row: `(x - mean) / scale` per feature,
NaN passing through. -/
def transformRow (sc : Scaler) (r : List (Option Q)) : List (Option Q) :=
  (List.range r.length).map (fun j =>
    ((r.get? j).getD none).map (fun x =>
      (x - (sc.center.get? j).getD 0) / ((sc.scale.get? j).getD 1)))

structure KMeansModel where
  centroids : List (List Q)
deriving DecidableEq, Repr

/-- `KMeans(n_clusters=4, random_state=42, n_init='auto').fit(...)`
(app.py lines 445-446): sklearn rejects NaN input and
`n_samples < n_clusters`; otherwise the fitted centroids are whatever the
library's training procedure `train` produces for `k` clusters. -/
def kmeansFit (train : Nat → List (List Q) → List (List Q)) (k : Nat)
    (rows : List (List (Option Q))) : Except String KMeansModel :=
  if rows.any (fun r => r.any Option.isNone) then
    .error "Input contains NaN"
  else if rows.length < k then
    .error "n_samples should be >= n_clusters"
  else
    .ok { centroids := train k (rows.map (·.filterMap id)) }

/-- Squared Euclidean distance of two feature vectors. -/
def sqDist (a b : List Q) : Q :=
  ((a.zip b).map (fun p => (p.1 - p.2) * (p.1 - p.2))).sum

/-- Index of the first minimum of a list (as `np.argmin`; empty input
never reaches here through a fitted model). -/
def argminList : List Q → Nat
  | [] => 0
  | [_] => 0
  | v :: w :: rest =>
    let j := argminList (w :: rest)
    if (w :: rest).getD j 0 < v then j + 1 else 0

/-- `kmeans.predict` of one (scaled) row: rejects NaN features, else the
index of the nearest centroid. -/
def kmeansPredict (km : KMeansModel) (r : List (Option Q)) :
    Except String Nat :=
  if r.any Option.isNone then .error "Input contains NaN"
  else .ok (argminList (km.centroids.map (sqDist (r.filterMap id))))

def predictAll (km : KMeansModel) (rows : List (List (Option Q))) :
    Except String (List Nat) :=
  rows.mapM (kmeansPredict km)

/-- The process-wide segmentation globals (app.py lines 338-340):
`segmentation_scaler` / `segmentation_kmeans` are `none` while they hold
`None` or an unfitted estimator. -/
structure SegState where
  scaler : Option Scaler
  kmeans : Option KMeansModel
  initialized : Bool
deriving DecidableEq, Repr

def SegState.empty : SegState := { scaler := none, kmeans := none, initialized := false }

/-- Embedding of `initialize_segmentation_models` (app.py lines 410-453):
preprocess the training frame, overwrite the scaler global and fit it,
then overwrite the k-means global and fit it on the scaled features; the
`initialized` flag is set only after both fits; any failure returns
`False` with the flag untouched (the failed stage's global left
overwritten, as in the source where assignment precedes `fit`). -/
def initialize_segmentation_models (sqrtQ : Q → Q)
    (train : Nat → List (List Q) → List (List Q)) (now : Int)
    (st : SegState) (f : Frame) : Bool × SegState :=
  let feats := (prepareRows now f).map featuresOf
  match scalerFit sqrtQ feats with
  | .error _ => (false, { st with scaler := none })
  | .ok sc =>
    match kmeansFit train 4 (feats.map (transformRow sc)) with
    | .error _ => (false, { st with scaler := some sc, kmeans := none })
    | .ok km => (true, { scaler := some sc, kmeans := some km, initialized := true })

/-- `apply_fuzzy_segmentation` (app.py lines 491-522) on a processed row:
rows with a NaN feature propagate NaN through the inference and end as
`(undefined, "Unknown")`; otherwise the Mamdani score is computed and
binned (an undefined centroid also yields `"Unknown"`). -/
def apply_fuzzy_segmentation (p : ProcessedRow) : Option Q × String :=
  match p.intent_score, p.touchpoints_count with
  | some isc, some tc =>
    let s := fuzzyScore p.total_spent isc tc (Q.ofInt p.recency)
    (s, categoryOf s)
  | _, _ => (none, "Unknown")

structure OutRecord where
  row : ProcessedRow
  promotional_segment_score : Option Q
  promotional_segment_category : String
  cluster_label : Int
deriving DecidableEq, Repr

inductive SegResponse where
  | ok (records : List OutRecord)
  | err (code : Nat) (msg : String)
deriving DecidableEq, Repr

/-- The classification body of `segment_customers` once models exist
(app.py lines 550-581): preprocess and scale with the frozen scaler,
apply the fuzzy stage per row (per-record failures recorded inline), then
label every row with the frozen k-means; an exception anywhere (unfitted
globals, NaN at `predict`) becomes the generic 500. -/
def classifyCore (now : Int) (st : SegState) (f : Frame) : SegResponse :=
  match st.scaler, st.kmeans with
  | some sc, some km =>
    let processed := prepareRows now f
    let scaled := (processed.map featuresOf).map (transformRow sc)
    match predictAll km scaled with
    | .error e => .err 500 ("An internal error occurred: " ++ e)
    | .ok labels =>
      .ok ((processed.zip labels).map (fun pl =>
        let fz := apply_fuzzy_segmentation pl.1
        { row := pl.1, promotional_segment_score := fz.1,
          promotional_segment_category := fz.2,
          cluster_label := (pl.2 : Int) }))
  | _, _ => .err 500 "An internal error occurred: NoneType"

/-- Embedding of the `/segmentation` handler `segment_customers`
(app.py lines 524-585): when the pipeline is uninitialized it first
initializes the models from the uploaded batch, answering 500
`"Failed to initialize segmentation models"` if that fails; then (and in
the already-initialized case directly) it runs the classification body. -/
def segment_customers (sqrtQ : Q → Q)
    (train : Nat → List (List Q) → List (List Q)) (now : Int)
    (st : SegState) (f : Frame) : SegResponse × SegState :=
  if st.initialized then (classifyCore now st f, st)
  else
    match initialize_segmentation_models sqrtQ train now st f with
    | (false, st') => (.err 500 "Failed to initialize segmentation models", st')
    | (true, st') => (classifyCore now st' f, st')

/-- Embedding of the `/segmentation/initialize` handler (app.py lines
587-614): success JSON on `True`, 500 `"Failed to initialize models"`
otherwise. -/
def initialize_segmentation (sqrtQ : Q → Q)
    (train : Nat → List (List Q) → List (List Q)) (now : Int)
    (st : SegState) (f : Frame) : (Nat × String) × SegState :=
  match initialize_segmentation_models sqrtQ train now st f with
  | (true, st') => ((200, "Segmentation models initialized successfully"), st')
  | (false, st') => ((500, "Failed to initialize models"), st')

/-! ## Response inspectors -/

def SegResponse.isOk : SegResponse → Bool
  | .ok _ => true
  | .err _ _ => false

def SegResponse.records : SegResponse → List OutRecord
  | .ok r => r
  | .err _ _ => []

/-! ## Concrete fixtures

Concrete oracle instantiations and inputs used to evaluate the embedded
code on closed data. -/

/-- A concrete stand-in for the library square root (its exact values are
irrelevant to every property below). -/
def sqrt0 : Q → Q := fun _ => 1

/-- A concrete k-means training procedure satisfying sklearn's contract
of returning exactly `k` centroids. -/
def train0 : Nat → List (List Q) → List (List Q) :=
  fun k d => (List.range k).map (fun i => d.getD i (List.replicate 4 0))

def mkRow (ts : Int) (isc : Int) (tc : Int) (d : Int) : Row :=
  { total_spent := some (Q.ofInt ts), intent_score := some (Q.ofInt isc / 100),
    touchpoints_count := some (Q.ofInt tc), last_purchase_date := some d }

/-- Four complete customer rows (reference batch); with `now = 1000` the
first row has recency 10. -/
def F4 : Frame :=
  { hasIntent := true, hasTouch := true,
    rows := [mkRow 4800 95 18 990, mkRow 100 10 2 300,
      mkRow 2500 60 10 600, mkRow 50 5 1 100] }

/-- Two rows only: scaler fit succeeds, k-means fit fails
(`n_samples < n_clusters`). -/
def F2 : Frame :=
  { hasIntent := true, hasTouch := true,
    rows := [mkRow 100 10 2 300, mkRow 50 5 1 100] }

/-- A batch whose `intent_score` and `touchpoints_count` columns are
present but hold a missing value in the last two rows. -/
def FNaN : Frame :=
  { hasIntent := true, hasTouch := true,
    rows := [mkRow 4800 95 18 990,
      { total_spent := some 100, intent_score := none,
        touchpoints_count := some 2, last_purchase_date := some 300 },
      { total_spent := some 50, intent_score := some (1/20),
        touchpoints_count := none, last_purchase_date := some 100 }] }

/-- A batch missing both optional feature columns entirely. -/
def FNoCols : Frame :=
  { hasIntent := false, hasTouch := false,
    rows := [
      { total_spent := some 100, intent_score := none,
        touchpoints_count := none, last_purchase_date := some 300 },
      { total_spent := none, intent_score := none,
        touchpoints_count := none, last_purchase_date := none }] }

/-- The state after a successful initialization on `F4`. -/
def ST4 : SegState :=
  (initialize_segmentation_models sqrt0 train0 1000 SegState.empty F4).2

def KM4 : KMeansModel := ST4.kmeans.getD { centroids := [] }

/-- The records of a classification of `F4` in the initialized state. -/
def REC4 : List OutRecord :=
  ((segment_customers sqrt0 train0 1000 ST4 F4).1).records

def emptyProcessedRow : ProcessedRow :=
  { total_spent := 0, intent_score := none,
    touchpoints_count := none, recency := 0 }

def R40 : OutRecord :=
  REC4.getD 0
    { row := emptyProcessedRow, promotional_segment_score := none,
      promotional_segment_category := "Unknown", cluster_label := -1 }

-- WhatsApp fixtures: formatting accepts exactly the two good phones,
-- the provider call always succeeds.
def fmtW : String → Option String := fun s =>
  if s = "9876543210" then some "+919876543210"
  else if s = "+14155552671" then some "+14155552671"
  else none

def sendOK : String → String → Except String TwilioMsg :=
  fun _ dest => .ok { sid := "SM" ++ dest, status := "queued" }

def rGood1 : Recipient :=
  { phone := some "9876543210", message := some "hi", customerName := some "A" }

def rBad : Recipient :=
  { phone := some "bad", message := some "hi", customerName := none }

def rGood2 : Recipient :=
  { phone := some "+14155552671", message := some "hi", customerName := some "C" }

def RS3 : List Recipient := [rGood1, rBad, rGood2]

-- Forecast fixtures.
def zeroSample (m : String) : MonthlySample :=
  { month := m, revenue := 0, aov := 0, orders := 0 }

/-- Three all-zero months. -/
def B0 : ForecastBody :=
  { monthlyData := [zeroSample "2024-01", zeroSample "2024-02", zeroSample "2024-03"],
    periods := 6, ftype := .revenue }

/-- Two months only. -/
def B2 : ForecastBody :=
  { monthlyData := [zeroSample "2024-01", zeroSample "2024-02"],
    periods := 6, ftype := .revenue }

/-- A fitting oracle that converges with empty prediction frames. -/
def fit0 : List (String × Q) → Int → Except String Predictions :=
  fun _ _ => .ok { hist := [], future := [] }

/-- A fitting oracle that always raises. -/
def fitErr : List (String × Q) → Int → Except String Predictions :=
  fun _ _ => .error "model fit failed"

/-- A concrete stand-in for the pandas month parser. -/
def monthKey0 : String → Int := fun _ => 0

/-- The metrics of a successful all-zero forecast under `sqrt0`/`fit0`. -/
def M0 : Metrics := { mape := 0, mae := 0, rmse := 1 }

-- Phone-normalizer oracle: only +91 9876543210 is a valid number;
-- region-based parsing never succeeds.
def pvW : List Char → Option (List Char) := fun s =>
  if s = "+919876543210".toList then some "+919876543210".toList else none

def prW : List Char → String → Option (List Char) := fun _ _ => none

-- Commit-count fixtures.
def fetch0 : LastURL → Nat := fun _ => 13

/-- A single-page commits response without a `link` header. -/
def respNoLink : CommitsResponse := { status := 200, link := none, items := 7 }

/-- A paginated commits response whose `link` header carries a last-page
entry `page=5&per_page=30`. -/
def respLast : CommitsResponse :=
  { status := 200,
    link := some [{ rel := "next", url := { page := some 2, perPage := some 30 } },
      { rel := "last", url := { page := some 5, perPage := some 30 } }],
    items := 30 }

/-! ## Theorems -/

/-- C1 claims that every classification request made while the pipeline
is uninitialized fails; at the concrete uninitialized state and the
4-row batch `F4`, the classify request instead succeeds and produces one
segment result per record. -/
theorem C1_counterexample :
    SegState.empty.initialized = false ∧
    ((segment_customers sqrt0 train0 1000 SegState.empty F4).1).isOk = true ∧
    ((segment_customers sqrt0 train0 1000 SegState.empty F4).1).records.length = 4 :=
  ⟨rfl, by decide, by decide⟩

/-- C1 (amended): a classification request made while the pipeline is
uninitialized first initializes the models from the request batch; the
request is rejected with the fixed 500 initialization error exactly when
that initialization fails, and otherwise proceeds to the classification
body on the freshly initialized state. -/
theorem C1_lazy_initialization (sqrtQ : Q → Q)
    (train : Nat → List (List Q) → List (List Q)) (now : Int)
    (st : SegState) (f : Frame) (h : st.initialized = false) :
    ((initialize_segmentation_models sqrtQ train now st f).1 = false →
      segment_customers sqrtQ train now st f =
        (.err 500 "Failed to initialize segmentation models",
          (initialize_segmentation_models sqrtQ train now st f).2)) ∧
    (∀ st', initialize_segmentation_models sqrtQ train now st f = (true, st') →
      segment_customers sqrtQ train now st f = (classifyCore now st' f, st')) := by
  constructor
  · intro h1
    simp only [segment_customers, h, Bool.false_eq_true, if_false]
    rcases heq : initialize_segmentation_models sqrtQ train now st f with ⟨b, st'⟩
    rw [heq] at h1
    simp only at h1
    subst h1
    rfl
  · intro st' heq
    simp only [segment_customers, h, Bool.false_eq_true, if_false, heq]

theorem C1_lazy_initialization_witness :
    segment_customers sqrt0 train0 1000 SegState.empty F2 =
      (.err 500 "Failed to initialize segmentation models",
        (initialize_segmentation_models sqrt0 train0 1000 SegState.empty F2).2) :=
  (C1_lazy_initialization sqrt0 train0 1000 SegState.empty F2 rfl).1 (by decide)

/-- C3 claims a record-level missing intent_score / touchpoints_count is
replaced by 0.5 / 0 before the fuzzy and cluster stages; in the concrete
batch `FNaN`, whose columns are present but whose second row misses
intent_score and whose third row misses touchpoints_count, preprocessing
leaves both values missing. -/
theorem C3_counterexample :
    FNaN.hasIntent = true ∧ FNaN.hasTouch = true ∧
    (prepareRows 1000 FNaN).map (fun p => (p.intent_score, p.touchpoints_count)) =
      [(some (19/20), some 18), (none, some 2), (some (1/20), none)] :=
  ⟨rfl, rfl, by decide⟩

/-- C3 (amended): the 0.5 / 0 defaults are applied per column, not per
record: when the `intent_score` (resp. `touchpoints_count`) column is
absent from the batch, every record gets 0.5 (resp. 0); when the column
is present, the per-record values — including missing ones — pass
through preprocessing unchanged. -/
theorem C3_column_defaults (now : Int) (f : Frame) :
    (f.hasIntent = false →
      (prepareRows now f).map (fun p => p.intent_score) =
        f.rows.map (fun _ => some (1/2))) ∧
    (f.hasTouch = false →
      (prepareRows now f).map (fun p => p.touchpoints_count) =
        f.rows.map (fun _ => some 0)) ∧
    (f.hasIntent = true →
      (prepareRows now f).map (fun p => p.intent_score) =
        f.rows.map (fun r => r.intent_score)) ∧
    (f.hasTouch = true →
      (prepareRows now f).map (fun p => p.touchpoints_count) =
        f.rows.map (fun r => r.touchpoints_count)) := by
  refine ⟨fun h => ?_, fun h => ?_, fun h => ?_, fun h => ?_⟩ <;>
    simp only [prepareRows, List.map_map, h] <;>
    simp [Function.comp_def]

theorem C3_column_defaults_witness :
    (prepareRows 1000 FNoCols).map (fun p => p.intent_score) =
      FNoCols.rows.map (fun _ => some (1/2)) ∧
    (prepareRows 1000 FNoCols).map (fun p => p.touchpoints_count) =
      FNoCols.rows.map (fun _ => some 0) :=
  ⟨(C3_column_defaults 1000 FNoCols).1 rfl, (C3_column_defaults 1000 FNoCols).2.1 rfl⟩

/-- C5: when every historical actual of the selected field is zero (and
at least 3 samples are supplied), a successful forecast response carries
MAPE exactly 0 — the all-zero guard short-circuits the division. -/
theorem C5_mape_zero (sqrtQ : Q → Q) (monthKey : String → Int)
    (fit : List (String × Q) → Int → Except String Predictions)
    (b : ForecastBody) (h3 : 3 ≤ b.monthlyData.length)
    (hz : ∀ s ∈ b.monthlyData, fieldOf b.ftype s = 0) :
    ∀ hl fl m, forecast_handler sqrtQ monthKey fit (some b) = .ok hl fl m →
      m.mape = 0 := by
  intro hl fl m heq
  have hlt : ¬ b.monthlyData.length < 3 := by omega
  simp only [forecast_handler, if_neg hlt] at heq
  rcases hfit : fit ((sortByMonth monthKey b.monthlyData).map
      (fun s => (s.month, fieldOf b.ftype s))) b.periods with e | preds
  · rw [hfit] at heq
    exact absurd heq (by simp)
  · rw [hfit] at heq
    simp only [ForecastResult.ok.injEq] at heq
    have hm := heq.2.2
    subst hm
    simp only [mapeOf]
    rw [if_neg]
    simp only [List.any_eq_true, decide_eq_true_eq, not_exists, not_and, not_not]
    intro x hx
    rcases List.mem_map.1 hx with ⟨s, hs, hxs⟩
    have hsmem : s ∈ b.monthlyData :=
      (List.perm_insertionSort _ b.monthlyData).mem_iff.1 hs
    rw [← hxs]
    exact hz s hsmem

theorem C5_mape_zero_witness : M0.mape = 0 :=
  C5_mape_zero sqrt0 monthKey0 fit0 B0 (by decide) (by decide) [] [] M0 (by decide)

/-- C6: the dispatch loop produces one result per recipient and never
aborts, the tally satisfies `total = #recipients` and
`sent + failed = total`, and a recipient whose phone fails normalization
is recorded as a failure whose error message names that phone. -/
theorem C6_dispatch_tally (fmt : String → Option String)
    (send : String → String → Except String TwilioMsg)
    (recipients : List Recipient) :
    (send_whatsapp fmt send recipients).total = recipients.length ∧
    (send_whatsapp fmt send recipients).sent +
      (send_whatsapp fmt send recipients).failed =
      (send_whatsapp fmt send recipients).total ∧
    (send_whatsapp fmt send recipients).results =
      recipients.map (processRecipient fmt send) ∧
    (∀ r p, presentStr r.phone = some p → presentStr r.message ≠ none →
      fmt p = none →
      (processRecipient fmt send r).success = false ∧
      (processRecipient fmt send r).error =
        some ("Invalid phone number format: " ++ p)) := by
  refine ⟨rfl, ?_, rfl, ?_⟩
  · have hle := List.length_filter_le (fun r => r.success)
      (recipients.map (processRecipient fmt send))
    rw [List.length_map] at hle
    simp only [send_whatsapp]
    omega
  · intro r p h1 h2 h3
    obtain ⟨msg, hmsg⟩ := Option.ne_none_iff_exists'.1 h2
    simp [processRecipient, h1, hmsg, h3]

theorem C6_dispatch_tally_witness :
    (send_whatsapp fmtW sendOK RS3).total = 3 ∧
    (send_whatsapp fmtW sendOK RS3).sent + (send_whatsapp fmtW sendOK RS3).failed = 3 ∧
    (processRecipient fmtW sendOK rBad).success = false ∧
    (processRecipient fmtW sendOK rBad).error =
      some "Invalid phone number format: bad" ∧
    (send_whatsapp fmtW sendOK RS3).sent = 2 ∧
    (send_whatsapp fmtW sendOK RS3).failed = 1 :=
  ⟨(C6_dispatch_tally fmtW sendOK RS3).1,
    (C6_dispatch_tally fmtW sendOK RS3).2.1,
    ((C6_dispatch_tally fmtW sendOK RS3).2.2.2 rBad "bad" rfl (by decide) rfl).1,
    ((C6_dispatch_tally fmtW sendOK RS3).2.2.2 rBad "bad" rfl (by decide) rfl).2,
    by decide, by decide⟩

/-- C7: on a 10-digit input that survived cleaning and failed the earlier
parse steps, the normalizer first tries the `+91` prefix when the leading
digit is 6-9, and the ordered candidate list `+91, +1, +44, +61, +49`
otherwise (and after a failed `+91` attempt), accepting the first prefix
the validity oracle approves. -/
theorem C7_ten_digit_candidates (pv : List Char → Option (List Char))
    (pr : List Char → String → Option (List Char)) (phone : String)
    (hne : ¬ phone.toList = [])
    (hten : isTenDigits (cleanPhone phone) = true)
    (hplus : startsWithPlus (cleanPhone phone) = false)
    (hus : pr (cleanPhone phone) "US" = none) :
    (looksIndian (cleanPhone phone) = true →
      ∀ r, pv (['+', '9', '1'] ++ cleanPhone phone) = some r →
        format_phone_number pv pr phone = some r) ∧
    (pv (['+', '9', '1'] ++ cleanPhone phone) = none →
      ∀ r, countryCodePrefixes.findSome? (fun cc => pv (cc ++ cleanPhone phone)) = some r →
        format_phone_number pv pr phone = some r) ∧
    (looksIndian (cleanPhone phone) = false →
      ∀ r, countryCodePrefixes.findSome? (fun cc => pv (cc ++ cleanPhone phone)) = some r →
        format_phone_number pv pr phone = some r) := by
  have hd : ¬ phone.data = [] := hne
  refine ⟨fun hind r h91 => ?_, fun h91n r hfind => ?_, fun hind r hfind => ?_⟩
  · simp only [List.cons_append, List.nil_append] at h91
    simp [format_phone_number, hd, hne, hplus, hus, hten, hind, h91]
  · simp only [List.cons_append, List.nil_append] at h91n
    cases hind : looksIndian (cleanPhone phone) <;>
      simp [format_phone_number, hd, hne, hplus, hus, hten, hind, h91n, hfind]
  · simp [format_phone_number, hd, hne, hplus, hus, hten, hind, hfind]

theorem C7_ten_digit_candidates_witness :
    format_phone_number pvW prW "9876543210" = some "+919876543210".toList :=
  (C7_ten_digit_candidates pvW prW "9876543210" (by decide) (by decide)
      (by decide) rfl).1 (by decide) "+919876543210".toList (by decide)

theorem argminList_lt_length :
    ∀ l : List Q, l ≠ [] → argminList l < l.length
  | [], h => absurd rfl h
  | [_], _ => by simp [argminList]
  | v :: w :: rest, _ => by
    have ih := argminList_lt_length (w :: rest) (by simp)
    simp only [argminList]
    split
    · simpa using Nat.succ_lt_succ ih
    · simp

theorem kmeansPredict_lt_length (km : KMeansModel) (r : List (Option Q)) (n : Nat)
    (hc : km.centroids ≠ []) (h : kmeansPredict km r = .ok n) :
    n < km.centroids.length := by
  unfold kmeansPredict at h
  split at h
  · exact absurd h (by simp)
  · simp only [Except.ok.injEq] at h
    subst h
    have := argminList_lt_length (km.centroids.map (sqDist (r.filterMap id)))
      (by simpa using hc)
    simpa using this

theorem predictAll_mem_lt (km : KMeansModel) (hc : km.centroids ≠ []) :
    ∀ rows labels, predictAll km rows = .ok labels →
      ∀ n ∈ labels, n < km.centroids.length := by
  intro rows
  induction rows with
  | nil =>
    intro labels h n hn
    simp only [predictAll, List.mapM_nil] at h
    simp only [pure, Except.pure, Except.ok.injEq] at h
    subst h
    simp at hn
  | cons r rs ih =>
    intro labels h n hn
    simp only [predictAll, List.mapM_cons] at h
    cases hr : kmeansPredict km r with
    | error e => rw [hr] at h; exact absurd h (by simp [Bind.bind, Except.bind])
    | ok v =>
      rw [hr] at h
      cases hrs : rs.mapM (kmeansPredict km) with
      | error e =>
        rw [hrs] at h
        exact absurd h (by simp [Bind.bind, Except.bind])
      | ok vs =>
        rw [hrs] at h
        simp only [Bind.bind, Except.bind, pure, Except.pure, Except.ok.injEq] at h
        subst h
        rcases List.mem_cons.1 hn with hn | hn
        · subst hn
          exact kmeansPredict_lt_length km r n hc hr
        · exact ih vs hrs n hn

/-- C9: a successful initialization stores a 4-centroid k-means model
(given the library contract that `fit` with `n_clusters = 4` produces 4
centroids), and every record returned by a classification from an
initialized state carries a cluster_label in {0, 1, 2, 3}. -/
theorem C9_cluster_label_range (sqrtQ : Q → Q)
    (train : Nat → List (List Q) → List (List Q)) (now : Int)
    (hc : ∀ k d, (train k d).length = k) :
    (∀ st st' f, initialize_segmentation_models sqrtQ train now st f = (true, st') →
      st'.initialized = true ∧
      ∃ km, st'.kmeans = some km ∧ km.centroids.length = 4) ∧
    (∀ (st : SegState) f recs st2 km, st.initialized = true →
      st.kmeans = some km → km.centroids.length = 4 →
      segment_customers sqrtQ train now st f = (.ok recs, st2) →
      ∀ rec ∈ recs, rec.cluster_label ∈ ([0, 1, 2, 3] : List Int)) := by
  constructor
  · intro st st' f h
    simp only [initialize_segmentation_models] at h
    split at h
    · simp at h
    · rename_i sc hsc
      split at h
      · simp at h
      · rename_i km hkm
        simp only [Prod.mk.injEq, true_and] at h
        rw [← h]
        refine ⟨rfl, km, rfl, ?_⟩
        unfold kmeansFit at hkm
        split at hkm
        · exact absurd hkm (by simp)
        · split at hkm
          · exact absurd hkm (by simp)
          · simp only [Except.ok.injEq] at hkm
            rw [← hkm]
            exact hc 4 _
  · intro st f recs st2 km hinit hkm hlen hrun rec hrec
    cases hsc : st.scaler with
    | none =>
      simp only [segment_customers, hinit, if_true, classifyCore, hkm, hsc] at hrun
      simp at hrun
    | some sc =>
      simp only [segment_customers, hinit, if_true, classifyCore, hkm, hsc] at hrun
      cases hpred : predictAll km
          (((prepareRows now f).map featuresOf).map (transformRow sc)) with
      | error e =>
        rw [hpred] at hrun
        simp at hrun
      | ok labels =>
        rw [hpred] at hrun
        simp only [Prod.mk.injEq, SegResponse.ok.injEq] at hrun
        obtain ⟨hrecs, -⟩ := hrun
        rw [← hrecs] at hrec
        rcases List.mem_map.1 hrec with ⟨pl, hpl, hrecdef⟩
        have hlab : pl.2 ∈ labels := (List.of_mem_zip hpl).2
        have hne4 : km.centroids ≠ [] := by
          intro hnil
          rw [hnil] at hlen
          simp at hlen
        have hlt : pl.2 < 4 := by
          have h := predictAll_mem_lt km hne4 _ _ hpred pl.2 hlab
          rwa [hlen] at h
        subst hrecdef
        have h4 : pl.2 = 0 ∨ pl.2 = 1 ∨ pl.2 = 2 ∨ pl.2 = 3 := by omega
        rcases h4 with h | h | h | h <;> simp [h]

theorem C9_cluster_label_range_witness :
    ST4.initialized = true ∧
    (∃ km, ST4.kmeans = some km ∧ km.centroids.length = 4) ∧
    R40.cluster_label ∈ ([0, 1, 2, 3] : List Int) := by
  have hc : ∀ k d, (train0 k d).length = k := by
    intro k d
    simp [train0]
  exact ⟨((C9_cluster_label_range sqrt0 train0 1000 hc).1 SegState.empty ST4 F4
      (by decide)).1,
    ((C9_cluster_label_range sqrt0 train0 1000 hc).1 SegState.empty ST4 F4
      (by decide)).2,
    (C9_cluster_label_range sqrt0 train0 1000 hc).2 ST4 F4 REC4 ST4 KM4
      (by decide) (by decide) (by decide) (by decide) R40 (by decide)⟩

/-- C10: initialization flips the process-wide flag to true only when
both the scaler fit and the k-means fit succeed (and then stores both
fitted models); on failure it reports false and leaves the flag at its
prior value — yet the scaler global may already have been overwritten,
as the concrete two-row batch `F2` shows, so initialization is not
atomic on the model state. -/
theorem C10_initialization_atomicity (sqrtQ : Q → Q)
    (train : Nat → List (List Q) → List (List Q)) (now : Int)
    (st : SegState) (f : Frame) :
    ((initialize_segmentation_models sqrtQ train now st f).1 = true →
      (initialize_segmentation_models sqrtQ train now st f).2.initialized = true ∧
      ∃ sc km, scalerFit sqrtQ ((prepareRows now f).map featuresOf) = .ok sc ∧
        kmeansFit train 4 (((prepareRows now f).map featuresOf).map (transformRow sc)) =
          .ok km ∧
        (initialize_segmentation_models sqrtQ train now st f).2 =
          { scaler := some sc, kmeans := some km, initialized := true }) ∧
    ((initialize_segmentation_models sqrtQ train now st f).1 = false →
      (initialize_segmentation_models sqrtQ train now st f).2.initialized =
        st.initialized) ∧
    ((initialize_segmentation_models sqrt0 train0 1000 SegState.empty F2).1 = false ∧
      (initialize_segmentation_models sqrt0 train0 1000 SegState.empty F2).2.scaler ≠
        SegState.empty.scaler) := by
  refine ⟨?_, ?_, by decide, by decide⟩
  · intro h
    simp only [initialize_segmentation_models] at h ⊢
    split at h
    · simp at h
    · rename_i sc hsc
      split at h
      · simp at h
      · rename_i km hkm
        simp only [hsc, hkm]
        exact ⟨trivial, sc, km, rfl, hkm, rfl⟩
  · intro h
    simp only [initialize_segmentation_models] at h ⊢
    split at h
    · rename_i e hsc
      simp only [hsc]
    · rename_i sc hsc
      split at h
      · rename_i e hkm
        simp only [hsc, hkm]
      · simp at h

theorem C10_initialization_atomicity_witness :
    (initialize_segmentation_models sqrt0 train0 1000 SegState.empty F4).2.initialized =
      true ∧
    (initialize_segmentation_models sqrt0 train0 1000 SegState.empty F2).2.initialized =
      SegState.empty.initialized :=
  ⟨((C10_initialization_atomicity sqrt0 train0 1000 SegState.empty F4).1 (by decide)).1,
    (C10_initialization_atomicity sqrt0 train0 1000 SegState.empty F2).2.1 (by decide)⟩

/-- C2: after initialization, classifying a record with total_spent=4800,
intent_score=0.95, touchpoints_count=18, recency=10 through the fuzzy
stage (six-rule Mamdani system, triangular membership functions, centroid
defuzzification, bins [0,4.5), [4.5,7.5), [7.5,10]) yields score 6 and
promotional_segment_category "High Value Engagement". -/
theorem C2_high_value_engagement :
    apply_fuzzy_segmentation
      { total_spent := 4800, intent_score := some (19/20),
        touchpoints_count := some 18, recency := 10 } =
    (some 6, "High Value Engagement") := by
  decide

/-- C4: a forecast request whose monthlyData has fewer than 3 samples is
answered 400 with the fixed insufficient-data message, and the response
does not depend on the fitting oracle (no model fitting is attempted). -/
theorem C4_insufficient_data (sqrtQ : Q → Q) (monthKey : String → Int)
    (fit fit' : List (String × Q) → Int → Except String Predictions)
    (b : ForecastBody) (h : b.monthlyData.length < 3) :
    forecast_handler sqrtQ monthKey fit (some b) =
      .err 400 "Insufficient data. Need at least 3 months of historical data." ∧
    forecast_handler sqrtQ monthKey fit (some b) =
      forecast_handler sqrtQ monthKey fit' (some b) := by
  constructor
  · simp only [forecast_handler, if_pos h]
  · simp only [forecast_handler, if_pos h]

theorem C4_insufficient_data_witness :
    forecast_handler sqrt0 monthKey0 fitErr (some B2) =
      .err 400 "Insufficient data. Need at least 3 months of historical data." ∧
    forecast_handler sqrt0 monthKey0 fitErr (some B2) =
      forecast_handler sqrt0 monthKey0 fit0 (some B2) :=
  C4_insufficient_data sqrt0 monthKey0 fitErr fit0 B2 (by decide)

/-- C8: the estimated commit count equals the single page's item count
when the commits-listing response has no link header, and equals
`(last_page - 1) * per_page + #items-of-last-page` when a `rel="last"`
link entry is present. -/
theorem C8_commit_estimate (fetchLast : LastURL → Nat) (resp : CommitsResponse)
    (h204 : resp.status ≠ 204) :
    (resp.link = none → estimate_commit_count fetchLast resp = resp.items) ∧
    (∀ entries e, resp.link = some entries →
      entries.find? (fun x => x.rel == "last") = some e →
      estimate_commit_count fetchLast resp =
        ((e.url.page.getD 1) - 1) * (e.url.perPage.getD 30) + (fetchLast e.url : Int)) := by
  constructor
  · intro hnone
    simp only [estimate_commit_count, if_neg h204, hnone]
  · intro entries e hsome hfind
    simp only [estimate_commit_count, if_neg h204, hsome, hfind]

theorem C8_commit_estimate_witness :
    estimate_commit_count fetch0 respNoLink = 7 ∧
    estimate_commit_count fetch0 respLast = (5 - 1) * 30 + 13 :=
  ⟨(C8_commit_estimate fetch0 respNoLink (by decide)).1 rfl,
    (C8_commit_estimate fetch0 respLast (by decide)).2
      respLast.link.iget { rel := "last", url := { page := some 5, perPage := some 30 } }
      rfl (by decide)⟩

end Kaizen
